import Mathlib

/-!
Verification of the catmaid/tileserver tile materialization pipeline.

Shallow embedding of `src/tensorstore_server.py` and `src/tile_server.py`:

* the per-zoom tensorstore volumes become a map from zoom level to an
  abstract pixel volume (`Vol`), mirroring `self.dataset_3d` / `self.shapes`
  / `self.dtypes`;
* `get_2d_tile`, `make_my_tile`, `make_tile`, `volume_info` and the edge's
  `get_tile` are translated statement by statement, with the Redis byte
  cache as an explicit `Cache` state and the PIL PNG codec as an abstract
  `encode` parameter (the Image Codec is an external collaborator);
* Python exceptions become `Except` results (`PyErr` carries the payloads of
  the `ValueError` / `KeyError` messages raised by the source);
* effect counters (`reads`, `extracts`, `encodes`) record how many volume
  reads / tile extractions / codec invocations an operation performed, so
  the cache-aside short-circuit properties are statable.
-/

namespace TileServer

/-- A 3d pixel volume at one zoom level: `self.dataset_3d[zoom]` together
with `self.shapes[zoom]` (`sx, sy, sz`) and `self.dtypes[zoom]`.  Pixels are
abstract natural numbers indexed by `(x, y, z)`. -/
structure Vol where
  sx : Nat
  sy : Nat
  sz : Nat
  dtype : String
  pix : Nat → Nat → Nat → Nat

/-- A 2d array as returned to callers of `get_2d_tile`: dimensions, element
dtype and a pixel function in (row, col) index order. -/
structure Tile where
  rows : Nat
  cols : Nat
  dtype : String
  pix : Nat → Nat → Nat

/-- Numpy transposition `tile.T`: swaps the two axes. -/
def Tile.T (t : Tile) : Tile :=
  ⟨t.cols, t.rows, t.dtype, fun i j => t.pix j i⟩

/-- `np.zeros((n, n), dtype=np.uint8)`. -/
def zeros (n : Nat) : Tile :=
  ⟨n, n, "uint8", fun _ _ => 0⟩

/-- Python exceptions raised on the paths under verification, carrying the
same data as the source's messages. -/
inductive PyErr where
  | valueErrorZ (z : Int) (sz : Nat)
  | valueErrorX (startX sx : Nat)
  | valueErrorY (startY sy : Nat)
  | keyError (zoom : Nat)
  | codecError (msg : String)
  deriving DecidableEq, Repr

/-- `str(e)` for the exceptions above; the `valueError` cases reproduce the
f-strings of `get_2d_tile` (including the stray closing bracket in the x and
y messages). -/
def PyErr.message : PyErr → String
  | .valueErrorZ z sz =>
      "Tile out of z bounds: Request " ++ toString z ++ " for [0," ++ toString sz ++ "]"
  | .valueErrorX startX sx =>
      "Tile out of x bounds: Request " ++ toString startX ++ " larger than " ++ toString sx ++ "]"
  | .valueErrorY startY sy =>
      "Tile out of y bounds: Request " ++ toString startY ++ " larger than " ++ toString sy ++ "]"
  | .keyError zoom => toString zoom
  | .codecError m => m

/-- The `AsyncTensorStoreServer` state after `__init__`: one volume per
configured zoom level (a dict, so lookup of an unconfigured zoom is a
`KeyError`) and the configured tile size. -/
structure Server where
  vols : Nat → Option Vol
  tile_size : Nat

/-- `AsyncTensorStoreServer.get_2d_tile(col, row, z, zoom)` plus a counter of
volume reads performed (0 or 1).  Follows the source line by line:
tier-1 blank-tile check with strict `>`, then the `z` bounds check, then the
`>=` checks on `start_x` / `start_y`, then the clipped read and transpose. -/
def get_2d_tile (srv : Server) (col row : Nat) (z : Int) (zoom : Nat) :
    Except PyErr Tile × Nat :=
  match srv.vols zoom with
  | none => (.error (.keyError zoom), 0)
  | some v =>
    let start_x := col * srv.tile_size
    let start_y := row * srv.tile_size
    if start_x > v.sx ∨ start_y > v.sy then
      (.ok (zeros srv.tile_size), 0)
    else
      let end_x := min (start_x + srv.tile_size) v.sx
      let end_y := min (start_y + srv.tile_size) v.sy
      if z < 0 ∨ (v.sz : Int) ≤ z then
        (.error (.valueErrorZ z v.sz), 0)
      else if start_x ≥ v.sx then
        (.error (.valueErrorX start_x v.sx), 0)
      else if start_y ≥ v.sy then
        (.error (.valueErrorY start_y v.sy), 0)
      else
        (.ok (Tile.T ⟨end_x - start_x, end_y - start_y, v.dtype,
            fun i j => v.pix (start_x + i) (start_y + j) z.toNat⟩), 1)

/-- The Redis byte cache: encoded bytes by string key (`r.exists` / `r.get`
/ `r.set`). -/
def Cache : Type := String → Option (List Nat)

/-- The cache key `f"/{zoom}/{z}/{row}/{col}.png"`. -/
def keyOf (zoom : Nat) (z : Int) (row col : Nat) : String :=
  "/" ++ toString zoom ++ "/" ++ toString z ++ "/" ++ toString row ++ "/" ++
    toString col ++ ".png"

/-- Outcome of one `make_my_tile` call: its result (`()` or the propagated
exception), the cache afterwards, and effect counters — volume reads,
`get_2d_tile` invocations, codec invocations. -/
structure MResult where
  out : Except PyErr Unit
  cache : Cache
  reads : Nat
  extracts : Nat
  encodes : Nat

/-- `make_my_tile(zoom, z, row, col)`: existence short-circuit, tile
extraction, PNG encoding via the abstract codec `encode`, cache write.  The
source's `except` clause re-raises the caught exception (wrapped in a bare
`Exception` whose `str` is the original message), so errors propagate with
no cache write. -/
def make_my_tile (srv : Server) (encode : Tile → Except PyErr (List Nat))
    (c : Cache) (zoom : Nat) (z : Int) (row col : Nat) : MResult :=
  let key := keyOf zoom z row col
  if (c key).isSome then
    ⟨.ok (), c, 0, 0, 0⟩
  else
    match get_2d_tile srv col row z zoom with
    | (.error e, n) => ⟨.error e, c, n, 1, 0⟩
    | (.ok t, n) =>
      match encode t with
      | .error e => ⟨.error e, c, n, 1, 0⟩
      | .ok bs => ⟨.ok (), fun k => if k = key then some bs else c k, n, 1, 1⟩

/-- `fastapi.HTTPException(status_code, detail)`. -/
structure HTTPException where
  status : Nat
  detail : String
  deriving DecidableEq, Repr

/-- Outcome of the `make_tile` route handler: HTTP-level result, the cache
afterwards, and the list of tile addresses `(zoom, z, row, col)` handed to
`background_tasks.add_task(make_my_tile, ...)`, in scheduling order. -/
structure MTResult where
  out : Except HTTPException Unit
  cache : Cache
  tasks : List (Nat × Int × Nat × Nat)

/-- The `make_tile` route: synchronous `make_my_tile` (failure becomes
`HTTPException(404, str(e))` and nothing is scheduled), then, when the
configured `PREFETCH_ADJACENT_Z = prefetchN` is positive, background tasks
`make_my_tile(zoom, z+i, row, col)` and `make_my_tile(zoom, z-i, row, col)`
for `i in range(prefetchN)`.  (`PREFETCH_HIGHERRES_SCALE_INDEX` guards a
`pass` in the source and adds nothing.) -/
def make_tile (srv : Server) (encode : Tile → Except PyErr (List Nat))
    (prefetchN : Nat) (c : Cache) (zoom : Nat) (z : Int) (row col : Nat) :
    MTResult :=
  let m := make_my_tile srv encode c zoom z row col
  match m.out with
  | .error e => ⟨.error ⟨404, e.message⟩, m.cache, []⟩
  | .ok _ =>
    ⟨.ok (), m.cache,
      if prefetchN > 0 then
        (List.range prefetchN).flatMap
          (fun i => [(zoom, z + (i : Int), row, col), (zoom, z - (i : Int), row, col)])
      else []⟩

/-- An HTTP response streamed by the edge. -/
structure TileResponse where
  status : Nat
  body : List Nat
  media_type : String
  deriving DecidableEq, Repr

/-- The edge's `get_tile` route (`src/tile_server.py`): it calls the
materializer's `make_tile` endpoint but never inspects the response status
(the `requests.get(...).json()` value is discarded; an `HTTPException` on the
materializer side becomes a JSON body, not a raised error here), then reads
the key from the cache — `r.get` yields `None` on a missing key and
`io.BytesIO(None)` is an empty buffer, so the streamed body is empty — and
returns a 200 `image/png` streaming response unconditionally. -/
def get_tile (srv : Server) (encode : Tile → Except PyErr (List Nat))
    (prefetchN : Nat) (c : Cache) (zoom : Nat) (z : Int) (row col : Nat) :
    TileResponse × Cache :=
  let k := keyOf zoom z row col
  let mt := make_tile srv encode prefetchN c zoom z row col
  let img_bytes := (mt.cache k).getD []
  (⟨200, img_bytes, "image/png"⟩, mt.cache)

/-- The JSON payload of `volume_info`. -/
structure VolumeInfo where
  shape : Nat × Nat × Nat
  dtype : String
  tile_size : Nat
  deriving DecidableEq, Repr

/-- The `volume_info` route: bare dict lookups `tile_server.shapes[zoom]`
etc., so an unconfigured zoom raises `KeyError(zoom)` with no handler. -/
def volume_info (srv : Server) (zoom : Nat) : Except PyErr VolumeInfo :=
  match srv.vols zoom with
  | none => .error (.keyError zoom)
  | some v => .ok ⟨(v.sx, v.sy, v.sz), v.dtype, srv.tile_size⟩

/-- Modelled framework behavior for routes that raise plain Python
exceptions: FastAPI maps an uncaught non-`HTTPException` exception to a 500
Internal Server Error response, and a normal return to 200. -/
def httpStatusOf {α : Type} : Except PyErr α → Nat
  | .ok _ => 200
  | .error _ => 500

/-! ### Concrete fixture for witnesses and counterexamples

A small configured server: tile size 4, one zoom level 0 with a
10 × 10 × 5 volume, and a trivially injective demo codec. -/

/-- Fixture volume: shape (10, 10, 5), deterministic pixels. -/
def vol10 : Vol :=
  ⟨10, 10, 5, "uint16", fun x y z => x + 2 * y + 3 * z⟩

/-- Fixture server: zoom 0 ↦ `vol10`, tile size 4. -/
def srv4 : Server :=
  ⟨fun zoom => if zoom = 0 then some vol10 else none, 4⟩

/-- Fixture codec: serializes dimensions and pixels, never fails. -/
def encDemo : Tile → Except PyErr (List Nat) :=
  fun t => .ok (t.rows :: t.cols ::
    (List.range t.rows).flatMap (fun r => (List.range t.cols).map (fun c => t.pix r c)))

/-- The empty byte cache. -/
def cEmpty : Cache := fun _ => none

/-- A cache holding bytes only under the key of the out-of-bounds address
(zoom 0, z 20, row 0, col 0); used to witness the existence short-circuit. -/
def cSeeded : Cache :=
  fun k => if k = keyOf 0 20 0 0 then some [1, 2, 3] else none

instance {ε α : Type} [DecidableEq ε] [DecidableEq α] : DecidableEq (Except ε α) :=
  fun x y =>
    match x, y with
    | .ok a, .ok b =>
      if h : a = b then .isTrue (congrArg Except.ok h)
      else .isFalse (fun hh => h (by cases hh; rfl))
    | .error a, .error b =>
      if h : a = b then .isTrue (congrArg Except.error h)
      else .isFalse (fun hh => h (by cases hh; rfl))
    | .ok _, .error _ => .isFalse (fun hh => Except.noConfusion hh)
    | .error _, .ok _ => .isFalse (fun hh => Except.noConfusion hh)

/-- Equation for `make_my_tile` when the key is already cached: the
existence short-circuit. -/
theorem make_my_tile_hit (srv : Server) (encode : Tile → Except PyErr (List Nat))
    (c : Cache) (zoom : Nat) (z : Int) (row col : Nat)
    (hk : (c (keyOf zoom z row col)).isSome = true) :
    make_my_tile srv encode c zoom z row col = ⟨.ok (), c, 0, 0, 0⟩ := by
  simp [make_my_tile, hk]

/-- Equation for `make_my_tile` on a cache miss when extraction fails. -/
theorem make_my_tile_extract_error (srv : Server)
    (encode : Tile → Except PyErr (List Nat)) (c : Cache)
    (zoom : Nat) (z : Int) (row col : Nat) (e : PyErr) (n : Nat)
    (hk : c (keyOf zoom z row col) = none)
    (hE : get_2d_tile srv col row z zoom = (.error e, n)) :
    make_my_tile srv encode c zoom z row col = ⟨.error e, c, n, 1, 0⟩ := by
  simp [make_my_tile, hk, hE]

/-- Equation for `make_my_tile` on a cache miss when extraction succeeds but
the codec fails. -/
theorem make_my_tile_encode_error (srv : Server)
    (encode : Tile → Except PyErr (List Nat)) (c : Cache)
    (zoom : Nat) (z : Int) (row col : Nat) (t : Tile) (e : PyErr) (n : Nat)
    (hk : c (keyOf zoom z row col) = none)
    (hE : get_2d_tile srv col row z zoom = (.ok t, n))
    (hc : encode t = .error e) :
    make_my_tile srv encode c zoom z row col = ⟨.error e, c, n, 1, 0⟩ := by
  simp [make_my_tile, hk, hE, hc]

/-- Equation for `make_my_tile` on a cache miss when extraction and encoding
both succeed: the write. -/
theorem make_my_tile_write (srv : Server)
    (encode : Tile → Except PyErr (List Nat)) (c : Cache)
    (zoom : Nat) (z : Int) (row col : Nat) (t : Tile) (bs : List Nat) (n : Nat)
    (hk : c (keyOf zoom z row col) = none)
    (hE : get_2d_tile srv col row z zoom = (.ok t, n))
    (hc : encode t = .ok bs) :
    make_my_tile srv encode c zoom z row col =
      ⟨.ok (), fun k => if k = keyOf zoom z row col then some bs else c k, n, 1, 1⟩ := by
  simp [make_my_tile, hk, hE, hc]

/-! ### Claims -/

/-- C1, counterexample.  On the fixture server (tile size 4, shape
(10, 10, 5)), the address (zoom 0, z 2, row 3, col 0) has
`startY = 12 > 10`, i.e. is tier-1 "fully outside"; starting from the empty
cache, `make_my_tile` nevertheless writes the encoded blank tile under the
address's key, refuting "performs no Byte Cache write for that address's
key". -/
theorem c1_blank_write_counterexample :
    cEmpty (keyOf 0 2 3 0) = none ∧
    (get_2d_tile srv4 0 3 2 0).fst = .ok (zeros 4) ∧
    ((make_my_tile srv4 encDemo cEmpty 0 2 3 0).cache (keyOf 0 2 3 0)).isSome = true :=
  ⟨rfl, rfl, by decide⟩

/-- C1, amended.  For a tile address whose start corner satisfies the tier-1
condition (`startX > shape.x` or `startY > shape.y`), `get_2d_tile` returns
the all-zero `tileSize × tileSize` 8-bit tile without error; and when the key
is absent and the codec succeeds on that blank tile, `make_my_tile` succeeds
and DOES write the encoded blank tile to the Byte Cache under the address's
key. -/
theorem c1_blank_tile_cached (srv : Server) (v : Vol)
    (encode : Tile → Except PyErr (List Nat)) (c : Cache)
    (zoom : Nat) (z : Int) (row col : Nat) (bs : List Nat)
    (hv : srv.vols zoom = some v)
    (hout : v.sx < col * srv.tile_size ∨ v.sy < row * srv.tile_size)
    (hk : c (keyOf zoom z row col) = none)
    (he : encode (zeros srv.tile_size) = .ok bs) :
    (get_2d_tile srv col row z zoom).fst = .ok (zeros srv.tile_size) ∧
    (make_my_tile srv encode c zoom z row col).out = .ok () ∧
    (make_my_tile srv encode c zoom z row col).cache (keyOf zoom z row col) = some bs := by
  have hg : get_2d_tile srv col row z zoom = (.ok (zeros srv.tile_size), 0) := by
    simp only [get_2d_tile, hv]
    rw [if_pos hout]
  have hm : make_my_tile srv encode c zoom z row col =
      ⟨.ok (), fun k => if k = keyOf zoom z row col then some bs else c k, 0, 1, 1⟩ := by
    simp only [make_my_tile, hk, hg, he, Option.isSome_none, Bool.false_eq_true, if_false]
  refine ⟨by rw [hg], by rw [hm], ?_⟩
  rw [hm]
  simp

/-- C1, witness for the amended theorem, at (zoom 0, z 2, row 3, col 0) on
the fixture. -/
theorem c1_blank_tile_cached_witness :
    (get_2d_tile srv4 0 3 2 0).fst = .ok (zeros srv4.tile_size) ∧
    (make_my_tile srv4 encDemo cEmpty 0 2 3 0).out = .ok () ∧
    (make_my_tile srv4 encDemo cEmpty 0 2 3 0).cache (keyOf 0 2 3 0) =
      some (encDemo (zeros srv4.tile_size)).toOption.get! :=
  c1_blank_tile_cached srv4 vol10 encDemo cEmpty 0 2 3 0 _
    rfl (by decide) rfl rfl

/-- C2, counterexample.  The tier-1 blank-tile branch runs before the `z`
bounds check, so the out-of-z address (zoom 0, z 20, row 3, col 0) on the
fixture (shape.z = 5, `startY = 12 > 10`) returns the blank tile instead of
failing: "for all values of row and col" is refuted. -/
theorem c2_z_counterexample :
    (get_2d_tile srv4 0 3 20 0).fst = .ok (zeros 4) := rfl

/-- C2, amended.  For z outside `[0, shape.z)`, `get_2d_tile` fails with the
out-of-bounds `ValueError` referencing `z` and `shape.z` — provided the
address is not tier-1 fully outside (`startX ≤ shape.x` and
`startY ≤ shape.y`), since the blank-tile branch is checked first. -/
theorem c2_z_out_of_bounds (srv : Server) (v : Vol) (zoom col row : Nat) (z : Int)
    (hv : srv.vols zoom = some v)
    (hz : z < 0 ∨ (v.sz : Int) ≤ z)
    (hx : col * srv.tile_size ≤ v.sx) (hy : row * srv.tile_size ≤ v.sy) :
    (get_2d_tile srv col row z zoom).fst = .error (.valueErrorZ z v.sz) := by
  simp only [get_2d_tile, hv]
  rw [if_neg (by omega), if_pos hz]

/-- C2, witness: z = 20 on the fixture volume of depth 5, in-bounds row/col. -/
theorem c2_z_out_of_bounds_witness :
    (get_2d_tile srv4 0 0 20 0).fst = .error (.valueErrorZ 20 vol10.sz) :=
  c2_z_out_of_bounds srv4 vol10 0 0 0 20 rfl (by decide) (by decide) (by decide)

/-- C3, confirmed.  For an address with `startX < shape.x`,
`startY < shape.y` and z in `[0, shape.z)`, `get_2d_tile` returns a tile of
dimensions `(min tileSize (shape.y - startY), min tileSize (shape.x - startX))`
(after the transposition) whose pixel (r, c) is the volume value at
`(startX + c, startY + r, z)`. -/
theorem c3_clipped_read (srv : Server) (v : Vol) (zoom col row : Nat) (z : Int)
    (hv : srv.vols zoom = some v)
    (hx : col * srv.tile_size < v.sx) (hy : row * srv.tile_size < v.sy)
    (hz0 : 0 ≤ z) (hz1 : z < (v.sz : Int)) :
    ∃ t, (get_2d_tile srv col row z zoom).fst = .ok t ∧
      t.rows = min srv.tile_size (v.sy - row * srv.tile_size) ∧
      t.cols = min srv.tile_size (v.sx - col * srv.tile_size) ∧
      ∀ r c, r < t.rows → c < t.cols →
        t.pix r c = v.pix (col * srv.tile_size + c) (row * srv.tile_size + r) z.toNat := by
  have hg : get_2d_tile srv col row z zoom =
      (.ok (Tile.T ⟨min (col * srv.tile_size + srv.tile_size) v.sx - col * srv.tile_size,
        min (row * srv.tile_size + srv.tile_size) v.sy - row * srv.tile_size, v.dtype,
        fun i j => v.pix (col * srv.tile_size + i) (row * srv.tile_size + j) z.toNat⟩), 1) := by
    simp only [get_2d_tile, hv]
    rw [if_neg (by omega), if_neg (by omega), if_neg (by omega), if_neg (by omega)]
  refine ⟨_, by rw [hg], ?_, ?_, ?_⟩
  · show min (row * srv.tile_size + srv.tile_size) v.sy - row * srv.tile_size = _
    omega
  · show min (col * srv.tile_size + srv.tile_size) v.sx - col * srv.tile_size = _
    omega
  · intro r c _ _
    rfl

/-- C3, witness: the edge tile (row 2, col 2) of the fixture volume
(start (8, 8), clipped to 2 × 2). -/
theorem c3_clipped_read_witness :
    (0 : Nat) * srv4.tile_size < vol10.sx ∧
    ∃ t, (get_2d_tile srv4 2 2 1 0).fst = .ok t ∧
      t.rows = min srv4.tile_size (vol10.sy - 2 * srv4.tile_size) ∧
      t.cols = min srv4.tile_size (vol10.sx - 2 * srv4.tile_size) ∧
      ∀ r c, r < t.rows → c < t.cols →
        t.pix r c = vol10.pix (2 * srv4.tile_size + c) (2 * srv4.tile_size + r) (1 : Int).toNat :=
  ⟨by decide,
    c3_clipped_read srv4 vol10 0 2 2 1 rfl (by decide) (by decide) (by decide) (by decide)⟩

/-- C4, confirmed.  If a `make_my_tile` call succeeds, a second call for the
same address leaves the Byte Cache exactly as the first left it (identical
bytes under the key, which is present), succeeds, and performs no volume
read, no extraction and no codec invocation — it short-circuits on key
existence. -/
theorem c4_idempotent (srv : Server) (encode : Tile → Except PyErr (List Nat))
    (c : Cache) (zoom : Nat) (z : Int) (row col : Nat)
    (h : (make_my_tile srv encode c zoom z row col).out = .ok ()) :
    (make_my_tile srv encode (make_my_tile srv encode c zoom z row col).cache
        zoom z row col).cache = (make_my_tile srv encode c zoom z row col).cache ∧
    ((make_my_tile srv encode c zoom z row col).cache (keyOf zoom z row col)).isSome = true ∧
    (make_my_tile srv encode (make_my_tile srv encode c zoom z row col).cache
        zoom z row col).out = .ok () ∧
    (make_my_tile srv encode (make_my_tile srv encode c zoom z row col).cache
        zoom z row col).reads = 0 ∧
    (make_my_tile srv encode (make_my_tile srv encode c zoom z row col).cache
        zoom z row col).extracts = 0 ∧
    (make_my_tile srv encode (make_my_tile srv encode c zoom z row col).cache
        zoom z row col).encodes = 0 := by
  have hpresent : ((make_my_tile srv encode c zoom z row col).cache
      (keyOf zoom z row col)).isSome = true := by
    by_cases hk : (c (keyOf zoom z row col)).isSome = true
    · rw [make_my_tile_hit srv encode c zoom z row col hk]
      exact hk
    · have hkn : c (keyOf zoom z row col) = none := by
        cases hcc : c (keyOf zoom z row col) with
        | none => rfl
        | some bs => rw [hcc] at hk; exact absurd rfl hk
      rcases hE : get_2d_tile srv col row z zoom with ⟨t?, n⟩
      cases t? with
      | error e =>
        rw [make_my_tile_extract_error srv encode c zoom z row col e n hkn hE] at h
        simp at h
      | ok t =>
        cases hc : encode t with
        | error e =>
          rw [make_my_tile_encode_error srv encode c zoom z row col t e n hkn hE hc] at h
          simp at h
        | ok bs =>
          rw [make_my_tile_write srv encode c zoom z row col t bs n hkn hE hc]
          simp
  rw [make_my_tile_hit srv encode (make_my_tile srv encode c zoom z row col).cache
    zoom z row col hpresent]
  exact ⟨rfl, hpresent, rfl, rfl, rfl, rfl⟩

/-- C4, witness: a fresh in-bounds materialization on the fixture followed by
a repeat call. -/
theorem c4_idempotent_witness :
    (make_my_tile srv4 encDemo (make_my_tile srv4 encDemo cEmpty 0 1 0 0).cache
        0 1 0 0).cache = (make_my_tile srv4 encDemo cEmpty 0 1 0 0).cache ∧
    ((make_my_tile srv4 encDemo cEmpty 0 1 0 0).cache (keyOf 0 1 0 0)).isSome = true ∧
    (make_my_tile srv4 encDemo (make_my_tile srv4 encDemo cEmpty 0 1 0 0).cache
        0 1 0 0).out = .ok () ∧
    (make_my_tile srv4 encDemo (make_my_tile srv4 encDemo cEmpty 0 1 0 0).cache
        0 1 0 0).reads = 0 ∧
    (make_my_tile srv4 encDemo (make_my_tile srv4 encDemo cEmpty 0 1 0 0).cache
        0 1 0 0).extracts = 0 ∧
    (make_my_tile srv4 encDemo (make_my_tile srv4 encDemo cEmpty 0 1 0 0).cache
        0 1 0 0).encodes = 0 :=
  c4_idempotent srv4 encDemo cEmpty 0 1 0 0 (by rfl)

/-- C6, confirmed.  When the key is absent and either the extraction or the
codec fails, `make_my_tile` propagates that error and leaves the cache
unchanged (no write under any key). -/
theorem c6_error_no_write (srv : Server) (encode : Tile → Except PyErr (List Nat))
    (c : Cache) (zoom : Nat) (z : Int) (row col : Nat) (e : PyErr)
    (hk : c (keyOf zoom z row col) = none)
    (he : (get_2d_tile srv col row z zoom).fst = .error e ∨
      ∃ t, (get_2d_tile srv col row z zoom).fst = .ok t ∧ encode t = .error e) :
    (make_my_tile srv encode c zoom z row col).out = .error e ∧
    (make_my_tile srv encode c zoom z row col).cache = c := by
  rcases hE : get_2d_tile srv col row z zoom with ⟨t?, n⟩
  rw [hE] at he
  cases t? with
  | error e' =>
    have he' : e' = e := by
      rcases he with h1 | ⟨t, h1, _⟩
      · simpa using h1
      · exfalso; simp at h1
    subst he'
    rw [make_my_tile_extract_error srv encode c zoom z row col e' n hk hE]
    exact ⟨rfl, rfl⟩
  | ok t0 =>
    have ht : encode t0 = .error e := by
      rcases he with h1 | ⟨t, h1, h2⟩
      · exfalso; simp at h1
      · have : t0 = t := by simpa using h1
        rw [this]; exact h2
    rw [make_my_tile_encode_error srv encode c zoom z row col t0 e n hk hE ht]
    exact ⟨rfl, rfl⟩

/-- C6, witness: an out-of-z extraction failure on the empty cache. -/
theorem c6_error_no_write_witness :
    (make_my_tile srv4 encDemo cEmpty 0 20 0 0).out = .error (.valueErrorZ 20 5) ∧
    (make_my_tile srv4 encDemo cEmpty 0 20 0 0).cache = cEmpty :=
  c6_error_no_write srv4 encDemo cEmpty 0 20 0 0 (.valueErrorZ 20 5) rfl (Or.inl rfl)

/-- C10, confirmed.  When the key is already present in the cache,
`make_my_tile` succeeds immediately with no bounds validation, no volume
read and no codec call, and the cache is untouched — for every address,
including those whose coordinates would otherwise fail the out-of-bounds
checks, because the existence short-circuit runs before extraction. -/
theorem c10_short_circuit (srv : Server) (encode : Tile → Except PyErr (List Nat))
    (c : Cache) (zoom : Nat) (z : Int) (row col : Nat)
    (hk : (c (keyOf zoom z row col)).isSome = true) :
    (make_my_tile srv encode c zoom z row col).out = .ok () ∧
    (make_my_tile srv encode c zoom z row col).cache = c ∧
    (make_my_tile srv encode c zoom z row col).reads = 0 ∧
    (make_my_tile srv encode c zoom z row col).extracts = 0 ∧
    (make_my_tile srv encode c zoom z row col).encodes = 0 := by
  rw [make_my_tile_hit srv encode c zoom z row col hk]
  exact ⟨rfl, rfl, rfl, rfl, rfl⟩

/-- C10, witness: the address (0, 20, 0, 0) is out of z bounds on the
fixture (`get_2d_tile` would fail), yet the seeded key makes `make_my_tile`
succeed with zero effects. -/
theorem c10_short_circuit_witness :
    (get_2d_tile srv4 0 0 20 0).fst = .error (.valueErrorZ 20 5) ∧
    (make_my_tile srv4 encDemo cSeeded 0 20 0 0).out = .ok () ∧
    (make_my_tile srv4 encDemo cSeeded 0 20 0 0).cache = cSeeded ∧
    (make_my_tile srv4 encDemo cSeeded 0 20 0 0).reads = 0 ∧
    (make_my_tile srv4 encDemo cSeeded 0 20 0 0).extracts = 0 ∧
    (make_my_tile srv4 encDemo cSeeded 0 20 0 0).encodes = 0 :=
  ⟨rfl, c10_short_circuit srv4 encDemo cSeeded 0 20 0 0 (by decide)⟩

/-- Length of the prefetch schedule: two tasks per loop iteration. -/
theorem length_prefetch (N zoom : Nat) (z : Int) (row col : Nat) :
    ((List.range N).flatMap
      (fun i => [(zoom, z + (i : Int), row, col), (zoom, z - (i : Int), row, col)])).length
      = 2 * N := by
  induction N with
  | zero => rfl
  | succ n ih =>
    rw [List.range_succ]
    simp only [List.flatMap_append, List.length_append, ih]
    simp
    omega

/-- Equation for `make_tile` when the synchronous `make_my_tile` succeeds. -/
theorem make_tile_ok (srv : Server) (encode : Tile → Except PyErr (List Nat))
    (prefetchN : Nat) (c : Cache) (zoom : Nat) (z : Int) (row col : Nat)
    (h : (make_my_tile srv encode c zoom z row col).out = .ok ()) :
    make_tile srv encode prefetchN c zoom z row col =
      ⟨.ok (), (make_my_tile srv encode c zoom z row col).cache,
        if prefetchN > 0 then
          (List.range prefetchN).flatMap
            (fun i => [(zoom, z + (i : Int), row, col), (zoom, z - (i : Int), row, col)])
        else []⟩ := by
  simp only [make_tile, h]

/-- C7, confirmed.  With a positive configured prefetch count and a
successful synchronous materialization, `make_tile` schedules exactly the
2·N background tasks `(zoom, z+i, row, col)` and `(zoom, z-i, row, col)` for
i in `[0, N)` — each a `make_my_tile` invocation, hence running the same
cache-aside protocol with its own existence short-circuit. -/
theorem c7_prefetch_schedule (srv : Server) (encode : Tile → Except PyErr (List Nat))
    (prefetchN : Nat) (c : Cache) (zoom : Nat) (z : Int) (row col : Nat)
    (hN : 0 < prefetchN)
    (h : (make_my_tile srv encode c zoom z row col).out = .ok ()) :
    (make_tile srv encode prefetchN c zoom z row col).tasks =
      (List.range prefetchN).flatMap
        (fun i => [(zoom, z + (i : Int), row, col), (zoom, z - (i : Int), row, col)]) ∧
    (make_tile srv encode prefetchN c zoom z row col).tasks.length = 2 * prefetchN := by
  have ht : (make_tile srv encode prefetchN c zoom z row col).tasks =
      (List.range prefetchN).flatMap
        (fun i => [(zoom, z + (i : Int), row, col), (zoom, z - (i : Int), row, col)]) := by
    rw [make_tile_ok srv encode prefetchN c zoom z row col h]
    simp [hN]
  exact ⟨ht, by rw [ht, length_prefetch]⟩

/-- C7, witness: N = 2 and a successful in-bounds request on the fixture. -/
theorem c7_prefetch_schedule_witness :
    (make_tile srv4 encDemo 2 cEmpty 0 1 0 0).tasks =
      (List.range 2).flatMap
        (fun i => [((0 : Nat), 1 + (i : Int), (0 : Nat), (0 : Nat)),
          ((0 : Nat), 1 - (i : Int), (0 : Nat), (0 : Nat))]) ∧
    (make_tile srv4 encDemo 2 cEmpty 0 1 0 0).tasks.length = 2 * 2 :=
  c7_prefetch_schedule srv4 encDemo 2 cEmpty 0 1 0 0 (by decide) (by rfl)

/-- C5, evaluation at the failing input.  On the fixture (shape.z = 5), the
edge request for (zoom 0, z 20, row 0, col 0) makes the materializer's
`make_tile` fail with the 404 `HTTPException`, yet the edge's `get_tile`
ignores that status and returns a 200 `image/png` response with an empty
body — it neither surfaces a not-found error nor the underlying reason. -/
theorem c5_edge_masks_failure :
    (make_tile srv4 encDemo 2 cEmpty 0 20 0 0).out =
      .error ⟨404, (PyErr.valueErrorZ 20 5).message⟩ ∧
    (get_tile srv4 encDemo 2 cEmpty 0 20 0 0).fst = ⟨200, [], "image/png"⟩ :=
  ⟨rfl, rfl⟩

/-- C8, evaluation at the failing input.  After a successful request for
(zoom 0, z 4, row 0, col 0) with N = 2 on the fixture (shape.z = 5), the
scheduled prefetch task (0, 5, 0, 0) is among the background tasks, and
running it (`make_my_tile`) returns the out-of-bounds error rather than
swallowing it: the failure escapes the task function, so the framework's
sequential background-task runner aborts before the remaining task
(0, 3, 0, 0). -/
theorem c8_task_error_escapes :
    ((0 : Nat), (5 : Int), (0 : Nat), (0 : Nat)) ∈
      (make_tile srv4 encDemo 2 cEmpty 0 4 0 0).tasks ∧
    (make_my_tile srv4 encDemo (make_tile srv4 encDemo 2 cEmpty 0 4 0 0).cache 0 5 0 0).out
      = .error (.valueErrorZ 5 5) :=
  ⟨by decide, rfl⟩

/-- C9, counterexample.  Zoom 3 is not configured on the fixture; the
`volume_info` handler raises a bare `KeyError`, which the framework surfaces
as a 500 internal error, not a 404-class error. -/
theorem c9_unconfigured_counterexample :
    volume_info srv4 3 = .error (.keyError 3) ∧
    httpStatusOf (volume_info srv4 3) = 500 ∧
    ¬ httpStatusOf (volume_info srv4 3) = 404 :=
  ⟨rfl, rfl, by decide⟩

/-- C9, amended.  A volume-info request for an unconfigured zoom fails with
an unhandled `KeyError` surfaced as a 500 internal error (not a 404-class
error); for a configured zoom it returns the volume's shape, dtype string
and the configured tile size. -/
theorem c9_volume_info (srv : Server) (zoom : Nat) :
    (srv.vols zoom = none →
      volume_info srv zoom = .error (.keyError zoom) ∧
      httpStatusOf (volume_info srv zoom) = 500) ∧
    (∀ v, srv.vols zoom = some v →
      volume_info srv zoom = .ok ⟨(v.sx, v.sy, v.sz), v.dtype, srv.tile_size⟩) := by
  constructor
  · intro h
    have hv : volume_info srv zoom = .error (.keyError zoom) := by
      simp [volume_info, h]
    exact ⟨hv, by rw [hv]; rfl⟩
  · intro v h
    simp [volume_info, h]

/-- C9, witness for the amended theorem: the unconfigured zoom 3 and the
configured zoom 0 on the fixture. -/
theorem c9_volume_info_witness :
    (volume_info srv4 3 = .error (.keyError 3) ∧
      httpStatusOf (volume_info srv4 3) = 500) ∧
    volume_info srv4 0 = .ok ⟨(vol10.sx, vol10.sy, vol10.sz), vol10.dtype, srv4.tile_size⟩ :=
  ⟨(c9_volume_info srv4 3).1 rfl, (c9_volume_info srv4 0).2 vol10 rfl⟩

end TileServer